import Mathlib

/-!
Shallow embedding of the Smart_Attendance recognition-to-attendance pipeline.

Source files embedded:
  * `app/services/face_logic.py` — `FaceLogic.process_image`, `FaceLogic.identify_face`
  * `app/api/sessions.py` — `process_frame`, `end_session`, the in-memory
    `session_frame_counters` dict
  * `app/api/students.py` — `enroll_student`
  * `app/db/models.py` — the rows the pipeline reads and writes

Modelling conventions: machine floats become `ℚ`; `datetime.utcnow()` becomes an
explicit `now : ℚ` argument to each endpoint (seconds); SQLAlchemy tables become
lists of rows appended in insertion order; the external face library
(`cv2.imdecode`, `face_recognition.face_locations`/`face_encodings`/`face_distance`)
becomes an opaque environment `FaceEnv`; `pickle.dumps`/`pickle.loads` of an
encoding is the identity on the vector.
-/

namespace SmartAttendance

/-- Raw bytes of an uploaded file. -/
abbrev Bytes := List Nat

/-- A face encoding vector (`numpy` 128-d array in the source). -/
abbrev Encoding := List ℚ

/-- `app/db/models.py` `Student`: internal primary key `id`, external
`student_id` string, display name.  Fields not read by the embedded code paths
(institution, email, phone, flags) are omitted. -/
structure Student where
  id : Nat
  student_id : String
  full_name : String
  deriving Repr, DecidableEq

/-- `app/db/models.py` `FaceEmbedding`: the stored vector for one student.
`embedding_bytes` holds the pickled encoding; pickling is modelled as the
identity, so the field is the vector itself. -/
structure FaceEmbedding where
  student_id : Nat
  embedding_bytes : Encoding
  deriving Repr, DecidableEq

/-- `app/db/models.py` `ClassSession`. -/
structure ClassSession where
  id : Nat
  teacher_id : Nat
  course_name : String
  start_time : ℚ
  end_time : Option ℚ
  is_active : Bool
  deriving Repr, DecidableEq

/-- `app/db/models.py` `RawDetection`: one frame's evidence for one student. -/
structure RawDetection where
  session_id : Nat
  student_id : Nat
  frame_number : Nat
  distance : ℚ
  is_static : Bool
  timestamp : ℚ
  deriving Repr, DecidableEq

/-- `app/db/models.py` `AttendanceLog`: the attendance ledger row. -/
structure AttendanceLog where
  session_id : Nat
  student_id : Nat
  status : String
  timestamp : ℚ
  confidence_score : ℚ
  deriving Repr, DecidableEq

/-- The mutable state the embedded endpoints touch: the five tables plus the
in-memory `session_frame_counters` dict of `app/api/sessions.py`. -/
structure DB where
  students : List Student
  face_embeddings : List FaceEmbedding
  sessions : List ClassSession
  raw_detections : List RawDetection
  attendance_logs : List AttendanceLog
  session_frame_counters : List (Nat × Nat)
  deriving Repr, DecidableEq

/-- The external face capability: `cv2.imdecode` (None on undecodable bytes),
face detection + encoding extraction on a decoded image (opaque image handles),
and `face_recognition.face_distance` restricted to one stored encoding versus
the probe. -/
structure FaceEnv where
  imdecode : Bytes → Option Nat
  face_encodings : Nat → List Encoding
  face_distance : Encoding → Encoding → ℚ

/-- `app/core/config.py` `Settings`, restricted to the recognition options the
embedded code reads. -/
structure Settings where
  SIMILARITY_THRESHOLD : ℚ := 1/2
  REQUIRED_CONSECUTIVE_FRAMES : Nat := 3
  deriving Repr, DecidableEq

/-- A Python exception escaping an endpoint. `cv2Error` is the
`cv2.error` raised by `cv2.cvtColor` when `cv2.imdecode` returned `None`. -/
inductive PyError where
  | cv2Error
  deriving Repr, DecidableEq

/-- `FaceLogic.process_image`: decode the bytes and extract one encoding per
detected face.  `cv2.imdecode` yields `None` on undecodable bytes and the
subsequent `cv2.cvtColor(None, ...)` raises `cv2.error`; there is no handler in
the source, so the failure is surfaced as `Except.error`. -/
def process_image (env : FaceEnv) (image_bytes : Bytes) :
    Except PyError (List Encoding) :=
  match env.imdecode image_bytes with
  | none => .error .cv2Error
  | some img => .ok (env.face_encodings img)

/-- Minimum of a list of rationals (`np.min`; 0 for the empty list, which the
source never hits because it guards on emptiness first). -/
def minOfList : List ℚ → ℚ
  | [] => 0
  | [x] => x
  | x :: y :: xs => min x (minOfList (y :: xs))

/-- First index of the minimum of a list (`np.argmin`: ties go to the lowest
index). -/
def idxOfMin : List ℚ → Nat
  | [] => 0
  | [_] => 0
  | x :: y :: xs => if x ≤ minOfList (y :: xs) then 0 else idxOfMin (y :: xs) + 1

/-- `FaceLogic.identify_face`: compare the probe against every stored
embedding, take the first minimal distance, and accept strictly below the
threshold.  On an empty store it returns `(None, 1.0)`. -/
def identify_face (env : FaceEnv) (embedding : Encoding) (db : DB)
    (threshold : ℚ) : Option Student × ℚ :=
  let all_embeddings := db.face_embeddings
  if all_embeddings.isEmpty then (none, 1)
  else
    let known_encodings := all_embeddings.map (·.embedding_bytes)
    let known_ids := all_embeddings.map (·.student_id)
    let distances := known_encodings.map (fun k => env.face_distance k embedding)
    let min_distance_idx := idxOfMin distances
    let min_distance := distances.getD min_distance_idx 0
    if min_distance < threshold then
      let student_id := known_ids.getD min_distance_idx 0
      (db.students.find? (fun s => s.id == student_id), min_distance)
    else
      (none, min_distance)

/-- Per-face status in the `recognized` list of the frame response.  The source
appends formatted strings; each constructor corresponds to one of its four
format branches and carries the data interpolated there. -/
inductive FaceStatus where
  | marked (full_name : String) (confidence : ℚ)
  | pending (full_name : String) (count required : Nat)
  | already_present (full_name : String)
  | unknown
  deriving Repr, DecidableEq

/-- The JSON body returned by a successful `process_frame` call. -/
structure FrameResult where
  frame : Nat
  faces_detected : Nat
  recognized : List FaceStatus
  deriving Repr, DecidableEq

/-- How a `process_frame` call terminates: the `HTTPException(400)` for a
missing/inactive session, an uncaught Python exception, or the JSON result. -/
inductive FrameOutcome where
  | session_inactive_400
  | raised (e : PyError)
  | ok (r : FrameResult)
  deriving Repr, DecidableEq

/-- `session_frame_counters.get(k, d)`. -/
def countersGet (cs : List (Nat × Nat)) (k d : Nat) : Nat :=
  match cs.find? (fun p => p.1 == k) with
  | some p => p.2
  | none => d

/-- `session_frame_counters[k] = v` (dict assignment). -/
def countersSet (cs : List (Nat × Nat)) (k v : Nat) : List (Nat × Nat) :=
  if (cs.find? (fun p => p.1 == k)).isSome then
    cs.map (fun p => if p.1 == k then (k, v) else p)
  else
    cs ++ [(k, v)]

/-- `session_frame_counters.pop(k, None)`. -/
def countersPop (cs : List (Nat × Nat)) (k : Nat) : List (Nat × Nat) :=
  cs.filter (fun p => p.1 != k)

/-- The rows selected by the N-frame consistency query of `process_frame`:
RawDetections of this (session, student) with `timestamp >= utcnow() - 30s`. -/
def windowDets (db : DB) (session_id student_id : Nat) (now : ℚ) :
    List RawDetection :=
  db.raw_detections.filter (fun r =>
    r.session_id == session_id && r.student_id == student_id &&
      decide (now - 30 ≤ r.timestamp))

/-- `func.count` over the window query. -/
def windowCount (db : DB) (session_id student_id : Nat) (now : ℚ) : Nat :=
  (windowDets db session_id student_id now).length

/-- `func.avg(RawDetection.distance)` over the window query: SQL AVG is `NULL`
(`None` in Python) when no row matches, else the mean. -/
def windowAvg (db : DB) (session_id student_id : Nat) (now : ℚ) : Option ℚ :=
  let dets := windowDets db session_id student_id now
  if dets.isEmpty then none
  else some ((dets.map (·.distance)).sum / dets.length)

/-- The existing-AttendanceLog lookup of `process_frame` (`.first()` on the
filter by student and session; no status filter in the source). -/
def logFor (db : DB) (session_id student_id : Nat) : Option AttendanceLog :=
  db.attendance_logs.find? (fun l =>
    l.student_id == student_id && l.session_id == session_id)

/-- `float(1 - avg_dist) if avg_dist else 0.5`: Python truthiness, so both a
`NULL` average and an average of exactly `0.0` fall back to `0.5`. -/
def pipelineConfidence (avg_dist : Option ℚ) : ℚ :=
  match avg_dist with
  | some a => if a ≠ 0 then 1 - a else 1/2
  | none => 1/2

/-- `db.add(raw_det); db.commit()`. -/
def rawInsert (db : DB) (r : RawDetection) : DB :=
  { db with raw_detections := db.raw_detections ++ [r] }

/-- `db.add(new_log); db.commit()`. -/
def logInsert (db : DB) (l : AttendanceLog) : DB :=
  { db with attendance_logs := db.attendance_logs ++ [l] }

/-- The `RawDetection(...)` row built by `process_frame` for a matched face:
`is_static=False`, timestamp defaulted to `utcnow()`. -/
def pipelineRawDet (session_id student_id frame_num : Nat) (dist now : ℚ) :
    RawDetection :=
  { session_id := session_id, student_id := student_id,
    frame_number := frame_num, distance := dist,
    is_static := false, timestamp := now }

/-- The `AttendanceLog(...)` row built by `process_frame` on threshold
crossing: status `"PRESENT"`, timestamp defaulted to `utcnow()`. -/
def pipelinePresentLog (session_id student_id : Nat) (confidence now : ℚ) :
    AttendanceLog :=
  { session_id := session_id, student_id := student_id,
    status := "PRESENT", timestamp := now, confidence_score := confidence }

/-- The body of the `for encoding in encodings:` loop of `process_frame`,
threading the database and the `recognized_names` accumulator. -/
def process_encoding (env : FaceEnv) (cfg : Settings)
    (session_id frame_num : Nat) (now : ℚ)
    (st : DB × List FaceStatus) (encoding : Encoding) : DB × List FaceStatus :=
  match identify_face env encoding st.1 cfg.SIMILARITY_THRESHOLD with
  | (some student, dist) =>
    let db := rawInsert st.1 (pipelineRawDet session_id student.id frame_num dist now)
    let detection_count := windowCount db session_id student.id now
    match logFor db session_id student.id with
    | some _ => (db, st.2 ++ [.already_present student.full_name])
    | none =>
      if cfg.REQUIRED_CONSECUTIVE_FRAMES ≤ detection_count then
        let confidence := pipelineConfidence (windowAvg db session_id student.id now)
        (logInsert db (pipelinePresentLog session_id student.id confidence now),
         st.2 ++ [.marked student.full_name confidence])
      else
        (db, st.2 ++ [.pending student.full_name detection_count
                        cfg.REQUIRED_CONSECUTIVE_FRAMES])
  | (none, _) => (st.1, st.2 ++ [.unknown])

/-- `process_frame` of `app/api/sessions.py`: gate on an existing ACTIVE
session, increment the in-memory frame counter, decode and extract encodings
(an uncaught `cv2.error` escapes here with the counter already bumped), then
run the per-encoding pipeline. -/
def process_frame (env : FaceEnv) (cfg : Settings) (session_id : Nat)
    (file : Bytes) (now : ℚ) (db : DB) : DB × FrameOutcome :=
  match db.sessions.find? (fun s => s.id == session_id) with
  | none => (db, .session_inactive_400)
  | some session =>
    if !session.is_active then (db, .session_inactive_400)
    else
      let frame_num := countersGet db.session_frame_counters session_id 0 + 1
      let db := { db with
        session_frame_counters :=
          countersSet db.session_frame_counters session_id frame_num }
      match process_image env file with
      | .error e => (db, .raised e)
      | .ok encodings =>
        let res := encodings.foldl
          (process_encoding env cfg session_id frame_num now) (db, [])
        (res.1, .ok { frame := frame_num, faces_detected := encodings.length,
                      recognized := res.2 })

/-- How an `end_session` call terminates. -/
inductive EndOutcome where
  | not_found_404
  | ok (total_present : Nat)
  deriving Repr, DecidableEq

/-- `end_session` of `app/api/sessions.py`: 404 on a missing session, else set
the end time, clear the active flag, drop the in-memory counter, and return the
count of the session's AttendanceLog rows (the source filters only on
`session_id`, not on status). -/
def end_session (session_id : Nat) (now : ℚ) (db : DB) : DB × EndOutcome :=
  match db.sessions.find? (fun s => s.id == session_id) with
  | none => (db, .not_found_404)
  | some _ =>
    let db := { db with
      sessions := db.sessions.map (fun s =>
        if s.id == session_id then
          { s with end_time := some now, is_active := false }
        else s),
      session_frame_counters := countersPop db.session_frame_counters session_id }
    let count := (db.attendance_logs.filter
      (fun l => l.session_id == session_id)).length
    (db, .ok count)

/-- How an `enroll_student` call terminates. -/
inductive EnrollOutcome where
  | duplicate_id_400
  | no_valid_embeddings_400
  | raised (e : PyError)
  | ok (student : Student)
  deriving Repr, DecidableEq

/-- Fresh primary key for a new Student row: one above the largest existing id
(models the autoincrement sequence). -/
def freshStudentPk (db : DB) : Nat :=
  (db.students.map (·.id)).foldl max 0 + 1

/-- The `for file in files:` loop of `enroll_student`: process each image and
collect an embedding for every image with exactly one detected face; images
with zero or several faces are skipped.  `acc` holds the `db.add`ed but not yet
committed FaceEmbedding rows; an exception from `process_image` aborts the loop
and discards them. -/
def enrollLoop (env : FaceEnv) (sid : Nat) :
    List Bytes → List FaceEmbedding → Except PyError (List FaceEmbedding)
  | [], acc => .ok acc
  | f :: fs, acc =>
    match process_image env f with
    | .error e => .error e
    | .ok encodings =>
      if encodings.length == 1 then
        enrollLoop env sid fs
          (acc ++ [{ student_id := sid, embedding_bytes := encodings.headD [] }])
      else
        enrollLoop env sid fs acc

/-- `enroll_student` of `app/api/students.py`: reject a duplicate external id,
commit the new Student row, run the image loop, delete the student again when
no valid embedding was produced, else commit the collected embeddings. -/
def enroll_student (env : FaceEnv) (full_name student_id : String)
    (files : List Bytes) (db : DB) : DB × EnrollOutcome :=
  match db.students.find? (fun s => s.student_id == student_id) with
  | some _ => (db, .duplicate_id_400)
  | none =>
    let new_student : Student :=
      { id := freshStudentPk db, student_id := student_id, full_name := full_name }
    let db1 := { db with students := db.students ++ [new_student] }
    match enrollLoop env new_student.id files [] with
    | .error e => (db1, .raised e)
    | .ok pending =>
      if pending.length == 0 then
        ({ db1 with students :=
            db1.students.filter (fun s => s.id != new_student.id) },
         .no_valid_embeddings_400)
      else
        ({ db1 with face_embeddings := db1.face_embeddings ++ pending },
         .ok new_student)

/-- Number of AttendanceLog rows with status PRESENT for a
(session, student) pair. -/
def presentCount (db : DB) (session_id student_id : Nat) : Nat :=
  (db.attendance_logs.filter (fun l =>
    l.session_id == session_id && l.student_id == student_id &&
      l.status == "PRESENT")).length

/-- Number of AttendanceLog rows with status PRESENT for a session. -/
def presentCountSession (db : DB) (session_id : Nat) : Nat :=
  (db.attendance_logs.filter (fun l =>
    l.session_id == session_id && l.status == "PRESENT")).length

/-- One `process_frame` request: target session, uploaded bytes, and the wall
clock at the time of the call. -/
structure FrameCall where
  session_id : Nat
  file : Bytes
  now : ℚ
  deriving Repr, DecidableEq

/-- Run a sequence of `process_frame` requests, keeping the state. -/
def runFrames (env : FaceEnv) (cfg : Settings) (calls : List FrameCall)
    (db : DB) : DB :=
  calls.foldl
    (fun d c => (process_frame env cfg c.session_id c.file c.now d).1) db

/-- The encodings the enrollment loop accepts: one per submitted image in
which exactly one face was detected, in submission order. -/
def validEncodings (env : FaceEnv) : List Bytes → List Encoding
  | [] => []
  | f :: fs =>
    match process_image env f with
    | .ok es =>
      if es.length == 1 then es.headD [] :: validEncodings env fs
      else validEncodings env fs
    | .error _ => validEncodings env fs

/-! ### Concrete example data shared by witnesses and counterexamples -/

/-- Example face capability: every byte string except `[9]` decodes, every
image contains exactly one face, and every stored embedding is at distance 0
from every probe. -/
def envZero : FaceEnv :=
  { imdecode := fun b => if b = [9] then none else some 0,
    face_encodings := fun _ => [[1]],
    face_distance := fun _ _ => 0 }

/-- Example face capability at constant distance 1/4. -/
def envQuarter : FaceEnv :=
  { imdecode := fun _ => some 0,
    face_encodings := fun _ => [[1]],
    face_distance := fun _ _ => 1/4 }

/-- Example state: one enrolled student with one embedding and one ACTIVE
session. -/
def dbOne : DB :=
  { students := [⟨1, "S1", "Alice"⟩],
    face_embeddings := [⟨1, [1]⟩],
    sessions := [⟨1, 7, "Math", 0, none, true⟩],
    raw_detections := [], attendance_logs := [],
    session_frame_counters := [(1, 0)] }

/-- Example configuration requiring a single consistent frame. -/
def cfgOne : Settings :=
  { SIMILARITY_THRESHOLD := 1/2, REQUIRED_CONSECUTIVE_FRAMES := 1 }

/-- The default configuration of `app/core/config.py`. -/
def cfgDefault : Settings := {}

/-! ### Branch lemmas for the per-encoding pipeline step -/

theorem logFor_rawInsert (db : DB) (r : RawDetection) (a b : Nat) :
    logFor (rawInsert db r) a b = logFor db a b := rfl

theorem presentCount_rawInsert (db : DB) (r : RawDetection) (a b : Nat) :
    presentCount (rawInsert db r) a b = presentCount db a b := rfl

theorem windowCount_logInsert (db : DB) (l : AttendanceLog) (a b : Nat)
    (now : ℚ) : windowCount (logInsert db l) a b now = windowCount db a b now :=
  rfl

theorem process_encoding_none (env : FaceEnv) (cfg : Settings)
    (sid fn : Nat) (now : ℚ) (db : DB) (acc : List FaceStatus) (e : Encoding)
    (d : ℚ) (hid : identify_face env e db cfg.SIMILARITY_THRESHOLD = (none, d)) :
    process_encoding env cfg sid fn now (db, acc) e = (db, acc ++ [.unknown]) := by
  unfold process_encoding
  rw [hid]

theorem process_encoding_already (env : FaceEnv) (cfg : Settings)
    (sid fn : Nat) (now : ℚ) (db : DB) (acc : List FaceStatus) (e : Encoding)
    (student : Student) (dist : ℚ) (l : AttendanceLog)
    (hid : identify_face env e db cfg.SIMILARITY_THRESHOLD = (some student, dist))
    (hlog : logFor db sid student.id = some l) :
    process_encoding env cfg sid fn now (db, acc) e =
      (rawInsert db (pipelineRawDet sid student.id fn dist now),
       acc ++ [.already_present student.full_name]) := by
  unfold process_encoding
  rw [hid]
  dsimp only
  rw [logFor_rawInsert, hlog]

theorem process_encoding_marked (env : FaceEnv) (cfg : Settings)
    (sid fn : Nat) (now : ℚ) (db : DB) (acc : List FaceStatus) (e : Encoding)
    (student : Student) (dist : ℚ)
    (hid : identify_face env e db cfg.SIMILARITY_THRESHOLD = (some student, dist))
    (hlog : logFor db sid student.id = none)
    (hcnt : cfg.REQUIRED_CONSECUTIVE_FRAMES ≤
      windowCount (rawInsert db (pipelineRawDet sid student.id fn dist now))
        sid student.id now) :
    process_encoding env cfg sid fn now (db, acc) e =
      (logInsert (rawInsert db (pipelineRawDet sid student.id fn dist now))
        (pipelinePresentLog sid student.id
          (pipelineConfidence
            (windowAvg (rawInsert db (pipelineRawDet sid student.id fn dist now))
              sid student.id now)) now),
       acc ++ [.marked student.full_name
         (pipelineConfidence
           (windowAvg (rawInsert db (pipelineRawDet sid student.id fn dist now))
             sid student.id now))]) := by
  unfold process_encoding
  rw [hid]
  dsimp only
  rw [logFor_rawInsert, hlog]
  dsimp only
  rw [if_pos hcnt]

theorem process_encoding_pending (env : FaceEnv) (cfg : Settings)
    (sid fn : Nat) (now : ℚ) (db : DB) (acc : List FaceStatus) (e : Encoding)
    (student : Student) (dist : ℚ)
    (hid : identify_face env e db cfg.SIMILARITY_THRESHOLD = (some student, dist))
    (hlog : logFor db sid student.id = none)
    (hcnt : ¬ cfg.REQUIRED_CONSECUTIVE_FRAMES ≤
      windowCount (rawInsert db (pipelineRawDet sid student.id fn dist now))
        sid student.id now) :
    process_encoding env cfg sid fn now (db, acc) e =
      (rawInsert db (pipelineRawDet sid student.id fn dist now),
       acc ++ [.pending student.full_name
         (windowCount (rawInsert db (pipelineRawDet sid student.id fn dist now))
           sid student.id now)
         cfg.REQUIRED_CONSECUTIVE_FRAMES]) := by
  unfold process_encoding
  rw [hid]
  dsimp only
  rw [logFor_rawInsert, hlog]
  dsimp only
  rw [if_neg hcnt]

/-! ### C1: at most one PRESENT ledger row per (session, student) -/

theorem presentCount_of_logFor_none (db : DB) (a b : Nat)
    (h : logFor db a b = none) : presentCount db a b = 0 := by
  unfold logFor at h
  rw [List.find?_eq_none] at h
  unfold presentCount
  rw [List.length_eq_zero, List.filter_eq_nil_iff]
  intro l hl
  have hb := h l hl
  simp only [Bool.and_eq_true, beq_iff_eq] at hb ⊢
  tauto

theorem presentCount_logInsert (db : DB) (nl : AttendanceLog) (a b : Nat) :
    presentCount (logInsert db nl) a b =
      presentCount db a b +
        (if nl.session_id = a ∧ nl.student_id = b ∧ nl.status = "PRESENT"
         then 1 else 0) := by
  unfold presentCount logInsert
  dsimp only
  rw [List.filter_append, List.length_append]
  congr 1
  by_cases h : nl.session_id = a ∧ nl.student_id = b ∧ nl.status = "PRESENT"
  · obtain ⟨h1, h2, h3⟩ := h
    simp [List.filter_cons, h1, h2, h3]
  · rw [if_neg h]
    have : (nl.session_id == a && nl.student_id == b &&
        nl.status == "PRESENT") = false := by
      simp only [Bool.and_eq_false_iff, beq_eq_false_iff_ne, ne_eq]
      tauto
    simp [List.filter_cons, this]

theorem presentCount_process_encoding_le (env : FaceEnv) (cfg : Settings)
    (sid fn : Nat) (now : ℚ) (st : DB × List FaceStatus) (e : Encoding)
    (a b : Nat) (h : presentCount st.1 a b ≤ 1) :
    presentCount (process_encoding env cfg sid fn now st e).1 a b ≤ 1 := by
  obtain ⟨db, acc⟩ := st
  rcases hid : identify_face env e db cfg.SIMILARITY_THRESHOLD with ⟨fst, dist⟩
  cases fst with
  | none =>
    rw [process_encoding_none env cfg sid fn now db acc e dist hid]
    exact h
  | some student =>
    rcases hlog : logFor db sid student.id with _ | l
    · by_cases hcnt : cfg.REQUIRED_CONSECUTIVE_FRAMES ≤
        windowCount (rawInsert db (pipelineRawDet sid student.id fn dist now))
          sid student.id now
      · rw [process_encoding_marked env cfg sid fn now db acc e student dist
          hid hlog hcnt]
        dsimp only
        rw [presentCount_logInsert, presentCount_rawInsert]
        split_ifs with hif
        · have h0 : presentCount db a b = 0 := by
            have ha : sid = a := hif.1
            have hb : student.id = b := hif.2.1
            rw [← ha, ← hb]
            exact presentCount_of_logFor_none db sid student.id hlog
          omega
        · simpa using h
      · rw [process_encoding_pending env cfg sid fn now db acc e student dist
          hid hlog hcnt]
        exact h
    · rw [process_encoding_already env cfg sid fn now db acc e student dist l
        hid hlog]
      exact h

theorem presentCount_foldl_le (env : FaceEnv) (cfg : Settings)
    (sid fn : Nat) (now : ℚ) (l : List Encoding) :
    ∀ (st : DB × List FaceStatus), (∀ a b, presentCount st.1 a b ≤ 1) →
      ∀ a b,
        presentCount
          (l.foldl (process_encoding env cfg sid fn now) st).1 a b ≤ 1 := by
  induction l with
  | nil => intro st h a b; exact h a b
  | cons e es ih =>
    intro st h a b
    exact ih _
      (fun a b => presentCount_process_encoding_le env cfg sid fn now st e a b
        (h a b)) a b

theorem presentCount_setCounters (db : DB) (cs : List (Nat × Nat))
    (a b : Nat) :
    presentCount { db with session_frame_counters := cs } a b =
      presentCount db a b := rfl

theorem presentCount_process_frame_le (env : FaceEnv) (cfg : Settings)
    (sid : Nat) (file : Bytes) (now : ℚ) (db : DB)
    (h : ∀ a b, presentCount db a b ≤ 1) (a b : Nat) :
    presentCount (process_frame env cfg sid file now db).1 a b ≤ 1 := by
  unfold process_frame
  rcases hs : db.sessions.find? (fun s => s.id == sid) with _ | s
  · rw [hs]
    exact h a b
  · rw [hs]
    dsimp only
    cases hact : s.is_active with
    | false =>
      rw [if_pos (by decide)]
      exact h a b
    | true =>
      rw [if_neg (by decide)]
      rcases himg : process_image env file with e | encs
      · dsimp only
        rw [presentCount_setCounters]
        exact h a b
      · dsimp only
        refine presentCount_foldl_le env cfg sid _ now encs _ ?_ a b
        intro a b
        rw [presentCount_setCounters]
        exact h a b

/-- C1: for every session and every student, after any sequence of
`process_frame` calls in any order (any sessions, files, timestamps), the
number of AttendanceLog rows with status PRESENT for that (session, student)
pair is at most 1, provided the starting state already satisfied that bound
(in particular any state with an empty ledger). -/
theorem c1_present_at_most_once (env : FaceEnv) (cfg : Settings)
    (calls : List FrameCall) (db : DB)
    (h : ∀ a b, presentCount db a b ≤ 1) (sid stid : Nat) :
    presentCount (runFrames env cfg calls db) sid stid ≤ 1 := by
  unfold runFrames
  induction calls generalizing db with
  | nil => exact h sid stid
  | cons c cs ih =>
    exact ih _
      (fun a b => presentCount_process_frame_le env cfg c.session_id c.file
        c.now db h a b)

/-- Witness for `c1_present_at_most_once`: four frames of the same student in
one session still leave at most one PRESENT row. -/
theorem c1_present_at_most_once_witness :
    presentCount (runFrames envZero cfgDefault
      [⟨1, [0], 0⟩, ⟨1, [0], 1⟩, ⟨1, [0], 2⟩, ⟨1, [0], 3⟩] dbOne) 1 1 ≤ 1 :=
  c1_present_at_most_once envZero cfgDefault
    [⟨1, [0], 0⟩, ⟨1, [0], 1⟩, ⟨1, [0], 2⟩, ⟨1, [0], 3⟩] dbOne
    (fun a b => by norm_num [presentCount, dbOne]) 1 1

/-! ### C2: a PRESENT mark requires the N-frame window threshold -/

theorem logFor_setCounters (db : DB) (cs : List (Nat × Nat)) (a b : Nat) :
    logFor { db with session_frame_counters := cs } a b = logFor db a b := rfl

theorem windowCount_setCounters (db : DB) (cs : List (Nat × Nat)) (a b : Nat)
    (now : ℚ) :
    windowCount { db with session_frame_counters := cs } a b now =
      windowCount db a b now := rfl

theorem windowCount_rawInsert_le (db : DB) (r : RawDetection) (a b : Nat)
    (now : ℚ) :
    windowCount db a b now ≤ windowCount (rawInsert db r) a b now := by
  unfold windowCount windowDets rawInsert
  dsimp only
  rw [List.filter_append, List.length_append]
  exact Nat.le_add_right _ _

theorem logFor_logInsert (db : DB) (nl : AttendanceLog) (a b : Nat) :
    logFor (logInsert db nl) a b =
      (logFor db a b).or
        ([nl].find? (fun l => l.student_id == b && l.session_id == a)) := by
  unfold logFor logInsert
  dsimp only
  exact List.find?_append

theorem windowCount_le_process_encoding (env : FaceEnv) (cfg : Settings)
    (sid fn : Nat) (now : ℚ) (st : DB × List FaceStatus) (e : Encoding)
    (a b : Nat) :
    windowCount st.1 a b now ≤
      windowCount (process_encoding env cfg sid fn now st e).1 a b now := by
  obtain ⟨db, acc⟩ := st
  rcases hid : identify_face env e db cfg.SIMILARITY_THRESHOLD with ⟨fst, dist⟩
  cases fst with
  | none =>
    rw [process_encoding_none env cfg sid fn now db acc e dist hid]
  | some student =>
    rcases hlog : logFor db sid student.id with _ | l
    · by_cases hcnt : cfg.REQUIRED_CONSECUTIVE_FRAMES ≤
        windowCount (rawInsert db (pipelineRawDet sid student.id fn dist now))
          sid student.id now
      · rw [process_encoding_marked env cfg sid fn now db acc e student dist
          hid hlog hcnt]
        dsimp only
        rw [windowCount_logInsert]
        exact windowCount_rawInsert_le db _ a b now
      · rw [process_encoding_pending env cfg sid fn now db acc e student dist
          hid hlog hcnt]
        exact windowCount_rawInsert_le db _ a b now
    · rw [process_encoding_already env cfg sid fn now db acc e student dist l
        hid hlog]
      exact windowCount_rawInsert_le db _ a b now

theorem logFor_isSome_process_encoding (env : FaceEnv) (cfg : Settings)
    (sid fn : Nat) (now : ℚ) (st : DB × List FaceStatus) (e : Encoding)
    (a b : Nat) (h : (logFor st.1 a b).isSome) :
    (logFor (process_encoding env cfg sid fn now st e).1 a b).isSome := by
  obtain ⟨db, acc⟩ := st
  rcases hid : identify_face env e db cfg.SIMILARITY_THRESHOLD with ⟨fst, dist⟩
  cases fst with
  | none =>
    rw [process_encoding_none env cfg sid fn now db acc e dist hid]
    exact h
  | some student =>
    rcases hlog : logFor db sid student.id with _ | l
    · by_cases hcnt : cfg.REQUIRED_CONSECUTIVE_FRAMES ≤
        windowCount (rawInsert db (pipelineRawDet sid student.id fn dist now))
          sid student.id now
      · rw [process_encoding_marked env cfg sid fn now db acc e student dist
          hid hlog hcnt]
        dsimp only
        rw [logFor_logInsert, logFor_rawInsert]
        rcases h' : logFor db a b with _ | x
        · rw [h'] at h; simp at h
        · simp [Option.or]
      · rw [process_encoding_pending env cfg sid fn now db acc e student dist
          hid hlog hcnt]
        rw [logFor_rawInsert]
        exact h
    · rw [process_encoding_already env cfg sid fn now db acc e student dist l
        hid hlog]
      rw [logFor_rawInsert]
      exact h

theorem process_encoding_new_log_window (env : FaceEnv) (cfg : Settings)
    (sid fn : Nat) (now : ℚ) (st : DB × List FaceStatus) (e : Encoding)
    (a b : Nat) (hpre : logFor st.1 a b = none)
    (hpost : (logFor (process_encoding env cfg sid fn now st e).1 a b).isSome) :
    cfg.REQUIRED_CONSECUTIVE_FRAMES ≤
      windowCount (process_encoding env cfg sid fn now st e).1 a b now := by
  obtain ⟨db, acc⟩ := st
  rcases hid : identify_face env e db cfg.SIMILARITY_THRESHOLD with ⟨fst, dist⟩
  cases fst with
  | none =>
    rw [process_encoding_none env cfg sid fn now db acc e dist hid] at hpost
    rw [hpre] at hpost
    simp at hpost
  | some student =>
    rcases hlog : logFor db sid student.id with _ | l
    · by_cases hcnt : cfg.REQUIRED_CONSECUTIVE_FRAMES ≤
        windowCount (rawInsert db (pipelineRawDet sid student.id fn dist now))
          sid student.id now
      · rw [process_encoding_marked env cfg sid fn now db acc e student dist
          hid hlog hcnt] at hpost ⊢
        dsimp only at hpost ⊢
        rw [logFor_logInsert, logFor_rawInsert, hpre] at hpost
        simp only [Option.none_or, List.find?_cons, List.find?_nil] at hpost
        rw [windowCount_logInsert]
        by_cases hp : ((pipelinePresentLog sid student.id
            (pipelineConfidence
              (windowAvg (rawInsert db (pipelineRawDet sid student.id fn dist now))
                sid student.id now)) now).student_id == b &&
            (pipelinePresentLog sid student.id
              (pipelineConfidence
                (windowAvg (rawInsert db (pipelineRawDet sid student.id fn dist now))
                  sid student.id now)) now).session_id == a)
        · have hb : student.id = b := by
            have := (Bool.and_eq_true _ _).mp hp
            simpa [pipelinePresentLog] using this.1
          have ha : sid = a := by
            have := (Bool.and_eq_true _ _).mp hp
            simpa [pipelinePresentLog] using this.2
          rw [← ha, ← hb]
          exact hcnt
        · have hpf : ((pipelinePresentLog sid student.id
              (pipelineConfidence
                (windowAvg (rawInsert db (pipelineRawDet sid student.id fn dist now))
                  sid student.id now)) now).student_id == b &&
              (pipelinePresentLog sid student.id
                (pipelineConfidence
                  (windowAvg (rawInsert db (pipelineRawDet sid student.id fn dist now))
                    sid student.id now)) now).session_id == a) = false :=
            Bool.not_eq_true _ ▸ (Bool.eq_false_iff.mpr (fun hc => hp hc))
          rw [hpf] at hpost
          simp at hpost
      · rw [process_encoding_pending env cfg sid fn now db acc e student dist
          hid hlog hcnt] at hpost
        rw [logFor_rawInsert, hpre] at hpost
        simp at hpost
    · rw [process_encoding_already env cfg sid fn now db acc e student dist l
        hid hlog] at hpost
      rw [logFor_rawInsert, hpre] at hpost
      simp at hpost

theorem window_threshold_foldl (env : FaceEnv) (cfg : Settings)
    (sid fn : Nat) (now : ℚ) (a b : Nat) (l : List Encoding) :
    ∀ st : DB × List FaceStatus,
      ((logFor st.1 a b).isSome →
        cfg.REQUIRED_CONSECUTIVE_FRAMES ≤ windowCount st.1 a b now) →
      ((logFor (l.foldl (process_encoding env cfg sid fn now) st).1 a b).isSome →
        cfg.REQUIRED_CONSECUTIVE_FRAMES ≤
          windowCount (l.foldl (process_encoding env cfg sid fn now) st).1 a b now) := by
  induction l with
  | nil => intro st h; exact h
  | cons e es ih =>
    intro st h
    refine ih (process_encoding env cfg sid fn now st e) ?_
    intro hpost
    rcases hpre : logFor st.1 a b with _ | x
    · exact process_encoding_new_log_window env cfg sid fn now st e a b hpre hpost
    · have h1 := h (by rw [hpre]; rfl)
      exact le_trans h1 (windowCount_le_process_encoding env cfg sid fn now st e a b)

/-- C2: a student is never marked PRESENT in a session unless, at the moment of
marking, at least `REQUIRED_CONSECUTIVE_FRAMES` RawDetections for that
(session, student) have timestamps within the trailing 30-second window ending
at the current time: whenever a `process_frame` call creates the pair's first
AttendanceLog row, the resulting state holds at least that many in-window
RawDetections. -/
theorem c2_mark_requires_window_threshold (env : FaceEnv) (cfg : Settings)
    (sid : Nat) (file : Bytes) (now : ℚ) (db : DB) (stid : Nat)
    (hpre : logFor db sid stid = none)
    (hpost : (logFor (process_frame env cfg sid file now db).1 sid stid).isSome) :
    cfg.REQUIRED_CONSECUTIVE_FRAMES ≤
      windowCount (process_frame env cfg sid file now db).1 sid stid now := by
  unfold process_frame at hpost ⊢
  rcases hs : db.sessions.find? (fun s => s.id == sid) with _ | s
  · rw [hs] at hpost
    rw [hpre] at hpost
    simp at hpost
  · rw [hs] at hpost ⊢
    dsimp only at hpost ⊢
    cases hact : s.is_active with
    | false =>
      rw [hact] at hpost
      rw [if_pos (by decide)] at hpost
      dsimp only at hpost
      rw [hpre] at hpost
      simp at hpost
    | true =>
      rw [hact] at hpost
      rw [if_neg (by decide)] at hpost ⊢
      rcases himg : process_image env file with e | encs
      · rw [himg] at hpost
        dsimp only at hpost
        rw [logFor_setCounters, hpre] at hpost
        simp at hpost
      · rw [himg] at hpost
        dsimp only at hpost ⊢
        refine window_threshold_foldl env cfg sid _ now sid stid encs _ ?_ hpost
        intro hinit
        rw [logFor_setCounters, hpre] at hinit
        simp at hinit

/-- Witness for `c2_mark_requires_window_threshold`: one frame under the
1-frame configuration marks the student, and the resulting state holds at
least one in-window RawDetection. -/
theorem c2_mark_requires_window_threshold_witness :
    cfgOne.REQUIRED_CONSECUTIVE_FRAMES ≤
      windowCount (process_frame envZero cfgOne 1 [0] 0 dbOne).1 1 1 0 :=
  c2_mark_requires_window_threshold envZero cfgOne 1 [0] 0 dbOne 1
    (by norm_num [logFor, dbOne, List.find?])
    (by norm_num [process_frame, process_image, process_encoding, identify_face,
      envZero, cfgOne, dbOne, countersGet, countersSet, windowAvg, windowDets,
      windowCount, logFor, rawInsert, logInsert, pipelineRawDet,
      pipelinePresentLog, pipelineConfidence, idxOfMin, minOfList,
      List.filter, List.find?, List.foldl, List.getD])

/-! ### C3: confidence of a freshly created PRESENT row -/

theorem windowDets_rawInsert_self (db : DB) (a b fn : Nat) (dist now : ℚ) :
    windowDets (rawInsert db (pipelineRawDet a b fn dist now)) a b now =
      windowDets db a b now ++ [pipelineRawDet a b fn dist now] := by
  unfold windowDets rawInsert
  dsimp only
  rw [List.filter_append]
  congr 1
  have : now - 30 ≤ now := by linarith
  simp [pipelineRawDet, List.filter_cons, this]

theorem pipelineConfidence_some (a : ℚ) :
    pipelineConfidence (some a) = if a = 0 then 1/2 else 1 - a := by
  unfold pipelineConfidence
  by_cases h : a = 0
  · simp [h]
  · simp [h]

/-- C3 (amended): when the per-encoding pipeline step creates a PRESENT
AttendanceLog (matched student, no prior row, window count at threshold), the
row's confidence equals `1 - m` for the window mean distance `m` whenever
`m ≠ 0`; when the window mean distance is exactly 0 the stored confidence is
`0.5` instead of `1`. -/
theorem c3_confidence_of_mark (env : FaceEnv) (cfg : Settings)
    (sid fn : Nat) (now : ℚ) (db : DB) (acc : List FaceStatus) (e : Encoding)
    (student : Student) (dist : ℚ)
    (hid : identify_face env e db cfg.SIMILARITY_THRESHOLD = (some student, dist))
    (hlog : logFor db sid student.id = none)
    (hcnt : cfg.REQUIRED_CONSECUTIVE_FRAMES ≤
      windowCount (rawInsert db (pipelineRawDet sid student.id fn dist now))
        sid student.id now) :
    ∃ m : ℚ,
      windowAvg (rawInsert db (pipelineRawDet sid student.id fn dist now))
        sid student.id now = some m ∧
      process_encoding env cfg sid fn now (db, acc) e =
        (logInsert (rawInsert db (pipelineRawDet sid student.id fn dist now))
          (pipelinePresentLog sid student.id
            (if m = 0 then 1/2 else 1 - m) now),
         acc ++ [.marked student.full_name (if m = 0 then 1/2 else 1 - m)]) := by
  have hne : windowDets (rawInsert db (pipelineRawDet sid student.id fn dist now))
      sid student.id now ≠ [] := by
    rw [windowDets_rawInsert_self]
    simp
  have havg : windowAvg (rawInsert db (pipelineRawDet sid student.id fn dist now))
      sid student.id now =
      some (((windowDets (rawInsert db (pipelineRawDet sid student.id fn dist now))
          sid student.id now).map (·.distance)).sum /
        (windowDets (rawInsert db (pipelineRawDet sid student.id fn dist now))
          sid student.id now).length) := by
    unfold windowAvg
    dsimp only
    rw [if_neg (by simpa [List.isEmpty_iff] using hne)]
  refine ⟨_, havg, ?_⟩
  rw [process_encoding_marked env cfg sid fn now db acc e student dist hid hlog
    hcnt]
  rw [havg, pipelineConfidence_some]

/-- C3 counterexample: one zero-distance detection crosses the (configured)
1-frame threshold; the window mean distance is 0, so the claimed confidence is
`1 - 0 = 1`, but the created PRESENT row stores confidence `0.5`. -/
theorem c3_counterexample :
    windowAvg (process_frame envZero cfgOne 1 [0] 0 dbOne).1 1 1 0 = some 0 ∧
    (process_frame envZero cfgOne 1 [0] 0 dbOne).1.attendance_logs =
      [{ session_id := 1, student_id := 1, status := "PRESENT",
         timestamp := 0, confidence_score := 1/2 }] ∧
    (1 : ℚ) - 0 ≠ 1/2 := by
  refine ⟨?_, ?_, by norm_num⟩ <;>
  norm_num [process_frame, process_image, process_encoding, identify_face,
    envZero, cfgOne, dbOne, countersGet, countersSet, windowAvg, windowDets,
    windowCount, logFor, rawInsert, logInsert, pipelineRawDet,
    pipelinePresentLog, pipelineConfidence, idxOfMin, minOfList,
    List.filter, List.find?, List.foldl, List.getD]

/-- Witness for `c3_confidence_of_mark` at distance 1/4: the window mean is
1/4 and the stored confidence is `1 - 1/4`. -/
theorem c3_confidence_of_mark_witness :
    ∃ m : ℚ,
      windowAvg (rawInsert dbOne (pipelineRawDet 1 1 1 (1/4) 0)) 1 1 0 =
        some m ∧
      process_encoding envQuarter cfgOne 1 1 0 (dbOne, []) [1] =
        (logInsert (rawInsert dbOne (pipelineRawDet 1 1 1 (1/4) 0))
          (pipelinePresentLog 1 1 (if m = 0 then 1/2 else 1 - m) 0),
         [] ++ [.marked "Alice" (if m = 0 then 1/2 else 1 - m)]) :=
  c3_confidence_of_mark envQuarter cfgOne 1 1 0 dbOne [] [1] ⟨1, "S1", "Alice"⟩
    (1/4)
    (by norm_num [identify_face, envQuarter, dbOne, cfgOne, idxOfMin, minOfList,
      List.getD, List.find?])
    (by norm_num [logFor, dbOne, List.find?])
    (by norm_num [windowCount, windowDets, rawInsert, pipelineRawDet, dbOne,
      cfgOne, List.filter])

/-! ### C4: behaviour on an already-marked student -/

/-- C4 (amended): when a processed face matches a student who already has an
AttendanceLog row for the session, the pipeline step creates no new
AttendanceLog and reports already-marked for that face, but it still appends a
new RawDetection row (the detection is logged before the ledger check). -/
theorem c4_already_marked_effect (env : FaceEnv) (cfg : Settings)
    (sid fn : Nat) (now : ℚ) (db : DB) (acc : List FaceStatus) (e : Encoding)
    (student : Student) (dist : ℚ) (l : AttendanceLog)
    (hid : identify_face env e db cfg.SIMILARITY_THRESHOLD = (some student, dist))
    (hlog : logFor db sid student.id = some l) :
    (process_encoding env cfg sid fn now (db, acc) e).1.attendance_logs =
      db.attendance_logs ∧
    (process_encoding env cfg sid fn now (db, acc) e).1.raw_detections =
      db.raw_detections ++ [pipelineRawDet sid student.id fn dist now] ∧
    (process_encoding env cfg sid fn now (db, acc) e).2 =
      acc ++ [.already_present student.full_name] := by
  rw [process_encoding_already env cfg sid fn now db acc e student dist l hid
    hlog]
  exact ⟨rfl, rfl, rfl⟩

/-- Example state: like `dbOne` but the student is already marked PRESENT. -/
def dbMarked : DB :=
  { dbOne with attendance_logs := [⟨1, 1, "PRESENT", 0, 1⟩] }

/-- C4 counterexample: the student is already marked, the frame reports
already-marked and creates no AttendanceLog, yet a new RawDetection row is
written — refuting "no further writes for that pair". -/
theorem c4_counterexample :
    (process_frame envZero cfgDefault 1 [0] 1 dbMarked).1.raw_detections.length =
      dbMarked.raw_detections.length + 1 ∧
    (process_frame envZero cfgDefault 1 [0] 1 dbMarked).1.attendance_logs =
      dbMarked.attendance_logs ∧
    (process_frame envZero cfgDefault 1 [0] 1 dbMarked).2 =
      .ok { frame := 1, faces_detected := 1,
            recognized := [.already_present "Alice"] } := by
  refine ⟨?_, ?_, ?_⟩ <;>
  norm_num [process_frame, process_image, process_encoding, identify_face,
    envZero, cfgDefault, dbMarked, dbOne, countersGet, countersSet, windowAvg,
    windowDets, windowCount, logFor, rawInsert, logInsert, pipelineRawDet,
    pipelinePresentLog, pipelineConfidence, idxOfMin, minOfList,
    List.filter, List.find?, List.foldl, List.getD]

/-- Witness for `c4_already_marked_effect` on concrete data. -/
theorem c4_already_marked_effect_witness :
    (process_encoding envZero cfgDefault 1 1 1 (dbMarked, []) [1]).1.attendance_logs =
      dbMarked.attendance_logs ∧
    (process_encoding envZero cfgDefault 1 1 1 (dbMarked, []) [1]).1.raw_detections =
      dbMarked.raw_detections ++ [pipelineRawDet 1 1 1 0 1] ∧
    (process_encoding envZero cfgDefault 1 1 1 (dbMarked, []) [1]).2 =
      [] ++ [.already_present "Alice"] :=
  c4_already_marked_effect envZero cfgDefault 1 1 1 dbMarked [] [1]
    ⟨1, "S1", "Alice"⟩ 0 ⟨1, 1, "PRESENT", 0, 1⟩
    (by norm_num [identify_face, envZero, dbMarked, dbOne, cfgDefault, idxOfMin,
      minOfList, List.getD, List.find?])
    (by norm_num [logFor, dbMarked, dbOne, List.find?])

/-! ### C5: the matcher returns the minimum distance and matches strictly
below the threshold -/

theorem minOfList_le (l : List ℚ) : ∀ x ∈ l, minOfList l ≤ x := by
  induction l with
  | nil => intro x hx; cases hx
  | cons a t ih =>
    intro x hx
    cases t with
    | nil =>
      rcases List.mem_singleton.mp hx with rfl
      exact le_refl _
    | cons b u =>
      rcases List.mem_cons.mp hx with rfl | hx
      · exact min_le_left _ _
      · exact le_trans (min_le_right _ _) (ih x hx)

theorem minOfList_mem (l : List ℚ) (h : l ≠ []) : minOfList l ∈ l := by
  induction l with
  | nil => exact absurd rfl h
  | cons a t ih =>
    cases t with
    | nil => simp [minOfList]
    | cons b u =>
      rcases le_total a (minOfList (b :: u)) with hle | hle
      · simp [minOfList, min_eq_left hle]
      · have hm := ih (by simp)
        rw [show minOfList (a :: b :: u) = min a (minOfList (b :: u)) from rfl,
          min_eq_right hle]
        exact List.mem_cons_of_mem a hm

theorem idxOfMin_lt_length (l : List ℚ) (h : l ≠ []) :
    idxOfMin l < l.length := by
  induction l with
  | nil => exact absurd rfl h
  | cons a t ih =>
    cases t with
    | nil => simp [idxOfMin]
    | cons b u =>
      by_cases hle : a ≤ minOfList (b :: u)
      · simp [idxOfMin, hle]
      · rw [show idxOfMin (a :: b :: u) =
          (if a ≤ minOfList (b :: u) then 0 else idxOfMin (b :: u) + 1) from rfl,
          if_neg hle]
        have := ih (by simp)
        simpa [List.length_cons] using this

theorem getD_idxOfMin (l : List ℚ) (h : l ≠ []) :
    l.getD (idxOfMin l) 0 = minOfList l := by
  induction l with
  | nil => exact absurd rfl h
  | cons a t ih =>
    cases t with
    | nil => simp [idxOfMin, minOfList]
    | cons b u =>
      by_cases hle : a ≤ minOfList (b :: u)
      · simp [idxOfMin, minOfList, hle, min_eq_left hle]
      · rw [show idxOfMin (a :: b :: u) =
          (if a ≤ minOfList (b :: u) then 0 else idxOfMin (b :: u) + 1) from rfl,
          if_neg hle,
          show minOfList (a :: b :: u) = min a (minOfList (b :: u)) from rfl,
          min_eq_right (le_of_not_le hle)]
        exact ih (by simp)

/-- C5: for every probe vector and non-empty embedding store, `identify_face`
returns the minimum distance over all stored embeddings, returns a student
exactly when that minimum is strictly below the threshold (so a distance equal
to the threshold yields no match, together with that minimum distance), and
any returned student owns an embedding attaining the minimum. -/
theorem c5_identify_minimum_strict (env : FaceEnv) (embedding : Encoding)
    (db : DB) (threshold : ℚ)
    (hne : db.face_embeddings ≠ [])
    (hri : ∀ fe ∈ db.face_embeddings,
      (db.students.find? (fun s => s.id == fe.student_id)).isSome) :
    (identify_face env embedding db threshold).2 =
      minOfList ((db.face_embeddings.map (·.embedding_bytes)).map
        (fun k => env.face_distance k embedding)) ∧
    (∀ d ∈ (db.face_embeddings.map (·.embedding_bytes)).map
        (fun k => env.face_distance k embedding),
      (identify_face env embedding db threshold).2 ≤ d) ∧
    ((identify_face env embedding db threshold).1.isSome ↔
      (identify_face env embedding db threshold).2 < threshold) ∧
    ((identify_face env embedding db threshold).2 = threshold →
      (identify_face env embedding db threshold).1 = none) ∧
    (∀ s, (identify_face env embedding db threshold).1 = some s →
      ∃ fe ∈ db.face_embeddings, s.id = fe.student_id ∧
        env.face_distance fe.embedding_bytes embedding =
          (identify_face env embedding db threshold).2) := by
  have hnds : ((db.face_embeddings.map (·.embedding_bytes)).map
      (fun k => env.face_distance k embedding)) ≠ [] := by
    simp [hne]
  have hlds : ((db.face_embeddings.map (·.embedding_bytes)).map
      (fun k => env.face_distance k embedding)).length =
      db.face_embeddings.length := by
    simp
  have hidx := idxOfMin_lt_length _ hnds
  have hidx' : idxOfMin ((db.face_embeddings.map (·.embedding_bytes)).map
      (fun k => env.face_distance k embedding)) <
      db.face_embeddings.length := by
    rw [← hlds]; exact hidx
  have hgd := getD_idxOfMin _ hnds
  -- the embedding row at the argmin index
  have hds_val : ((db.face_embeddings.map (·.embedding_bytes)).map
      (fun k => env.face_distance k embedding)).getD
        (idxOfMin ((db.face_embeddings.map (·.embedding_bytes)).map
          (fun k => env.face_distance k embedding))) 0 =
      env.face_distance
        ((db.face_embeddings.getD
          (idxOfMin ((db.face_embeddings.map (·.embedding_bytes)).map
            (fun k => env.face_distance k embedding))) ⟨0, []⟩).embedding_bytes)
        embedding := by
    rw [List.getD_eq_getElem _ _ hidx, List.getElem_map, List.getElem_map,
      List.getD_eq_getElem _ _ hidx']
  have hid_val : (db.face_embeddings.map (·.student_id)).getD
      (idxOfMin ((db.face_embeddings.map (·.embedding_bytes)).map
        (fun k => env.face_distance k embedding))) 0 =
      (db.face_embeddings.getD
        (idxOfMin ((db.face_embeddings.map (·.embedding_bytes)).map
          (fun k => env.face_distance k embedding))) ⟨0, []⟩).student_id := by
    rw [List.getD_eq_getElem _ _ (by simpa using hidx'), List.getElem_map,
      List.getD_eq_getElem _ _ hidx']
  have hmem : db.face_embeddings.getD
      (idxOfMin ((db.face_embeddings.map (·.embedding_bytes)).map
        (fun k => env.face_distance k embedding))) ⟨0, []⟩ ∈
      db.face_embeddings := by
    rw [List.getD_eq_getElem _ _ hidx']
    exact List.getElem_mem hidx'
  unfold identify_face
  rw [if_neg (by simpa [List.isEmpty_iff] using hne)]
  dsimp only
  rw [hds_val] at hgd
  by_cases hlt : ((db.face_embeddings.map (·.embedding_bytes)).map
      (fun k => env.face_distance k embedding)).getD
        (idxOfMin ((db.face_embeddings.map (·.embedding_bytes)).map
          (fun k => env.face_distance k embedding))) 0 < threshold
  · rw [if_pos hlt]
    dsimp only
    rw [hds_val] at hlt ⊢
    refine ⟨hgd, ?_, ?_, ?_, ?_⟩
    · intro d hd
      rw [hgd]
      exact minOfList_le _ d hd
    · constructor
      · intro _
        rw [hgd]
        rw [hgd] at hlt
        exact hlt
      · intro _
        rw [hid_val]
        exact hri _ hmem
    · intro heq
      rw [heq] at hlt
      exact absurd hlt (lt_irrefl threshold)
    · intro s hs
      refine ⟨_, hmem, ?_, rfl⟩
      have hbeq := List.find?_some hs
      rw [hid_val] at hbeq
      simpa using hbeq
  · rw [if_neg hlt]
    dsimp only
    rw [hds_val] at hlt ⊢
    refine ⟨hgd, ?_, ?_, ?_, ?_⟩
    · intro d hd
      rw [hgd]
      exact minOfList_le _ d hd
    · constructor
      · intro hcon
        simp at hcon
      · intro hcon
        rw [hgd] at hlt
        rw [hgd] at hcon
        exact absurd hcon hlt
    · intro _
      rfl
    · intro s hs
      cases hs

/-- Witness for `c5_identify_minimum_strict` with the single stored embedding
at distance 1/4 and threshold exactly 1/4: the minimum equals the threshold,
so the conjuncts force a no-match with the minimum distance reported. -/
theorem c5_identify_minimum_strict_witness :
    (identify_face envQuarter [1] dbOne (1/4)).2 =
      minOfList ((dbOne.face_embeddings.map (·.embedding_bytes)).map
        (fun k => envQuarter.face_distance k [1])) ∧
    (∀ d ∈ (dbOne.face_embeddings.map (·.embedding_bytes)).map
        (fun k => envQuarter.face_distance k [1]),
      (identify_face envQuarter [1] dbOne (1/4)).2 ≤ d) ∧
    ((identify_face envQuarter [1] dbOne (1/4)).1.isSome ↔
      (identify_face envQuarter [1] dbOne (1/4)).2 < 1/4) ∧
    ((identify_face envQuarter [1] dbOne (1/4)).2 = 1/4 →
      (identify_face envQuarter [1] dbOne (1/4)).1 = none) ∧
    (∀ s, (identify_face envQuarter [1] dbOne (1/4)).1 = some s →
      ∃ fe ∈ dbOne.face_embeddings, s.id = fe.student_id ∧
        envQuarter.face_distance fe.embedding_bytes [1] =
          (identify_face envQuarter [1] dbOne (1/4)).2) :=
  c5_identify_minimum_strict envQuarter [1] dbOne (1/4)
    (by norm_num [dbOne])
    (by
      intro fe hfe
      simp only [dbOne, List.mem_singleton] at hfe
      subst hfe
      norm_num [dbOne, List.find?])

/-! ### C6: missing or inactive session fails without mutating state -/

/-- C6: for every session id that is missing or whose session is not ACTIVE,
`process_frame` fails with the session-inactive client error and returns the
state unchanged — in particular the frame counter is not incremented. -/
theorem c6_inactive_session_no_mutation (env : FaceEnv) (cfg : Settings)
    (sid : Nat) (file : Bytes) (now : ℚ) (db : DB)
    (h : ∀ s, db.sessions.find? (fun s => s.id == sid) = some s →
      s.is_active = false) :
    process_frame env cfg sid file now db = (db, .session_inactive_400) := by
  unfold process_frame
  rcases hs : db.sessions.find? (fun s => s.id == sid) with _ | s
  · rw [hs]
  · rw [hs]
    dsimp only
    rw [h s hs]
    rw [if_pos (by decide)]

/-- Example state: the session of `dbOne` after it has been ended. -/
def dbEnded : DB :=
  { dbOne with sessions := [⟨1, 7, "Math", 0, some 5, false⟩] }

/-- Witness for `c6_inactive_session_no_mutation`: a frame against the ended
session fails and leaves the state untouched. -/
theorem c6_inactive_session_no_mutation_witness :
    process_frame envZero cfgDefault 1 [0] 6 dbEnded =
      (dbEnded, .session_inactive_400) :=
  c6_inactive_session_no_mutation envZero cfgDefault 1 [0] 6 dbEnded
    (by
      intro s hs
      simp only [dbEnded, dbOne, List.find?] at hs
      simp at hs
      rw [← hs])

/-! ### C7: undecodable image bytes -/

/-- C7 evidence: on an ACTIVE session and bytes that `cv2.imdecode` cannot
decode, `process_frame` has already incremented the in-memory frame counter
(the frame number is consumed) and then the uncaught `cv2.error` from
`cv2.cvtColor` escapes the endpoint — no frame result with zero detections is
returned, contrary to the claimed partial-failure result. -/
theorem c7_decode_failure_raises (env : FaceEnv) (cfg : Settings)
    (sid : Nat) (file : Bytes) (now : ℚ) (db : DB) (s : ClassSession)
    (hs : db.sessions.find? (fun s => s.id == sid) = some s)
    (hact : s.is_active = true)
    (hdec : env.imdecode file = none) :
    process_frame env cfg sid file now db =
      ({ db with
          session_frame_counters :=
            countersSet db.session_frame_counters sid
              (countersGet db.session_frame_counters sid 0 + 1) },
       .raised .cv2Error) := by
  unfold process_frame
  rw [hs]
  dsimp only
  rw [hact]
  rw [if_neg (by decide)]
  unfold process_image
  rw [hdec]

/-- Witness for `c7_decode_failure_raises`: the bytes `[9]` do not decode
under `envZero`; the counter of session 1 is consumed and the `cv2.error`
escapes. -/
theorem c7_decode_failure_raises_witness :
    process_frame envZero cfgDefault 1 [9] 0 dbOne =
      ({ dbOne with
          session_frame_counters :=
            countersSet dbOne.session_frame_counters 1
              (countersGet dbOne.session_frame_counters 1 0 + 1) },
       .raised .cv2Error) :=
  c7_decode_failure_raises envZero cfgDefault 1 [9] 0 dbOne
    ⟨1, 7, "Math", 0, none, true⟩
    (by simp [dbOne, List.find?])
    rfl
    (by simp [envZero])

/-! ### C8: ending a session -/

/-- C8 (amended): for every existing session, `end_session` records the end
timestamp and clears the active flag, leaves the ledger and detection tables
untouched, and returns as `total_present` the total number of AttendanceLog
rows of the session regardless of status; that total equals the PRESENT count
whenever every ledger row of the session has status PRESENT (as is the case
for all rows the automatic pipeline creates). -/
theorem c8_end_session_effect (sid : Nat) (now : ℚ) (db : DB)
    (s : ClassSession)
    (hs : db.sessions.find? (fun s => s.id == sid) = some s) :
    (end_session sid now db).2 =
      .ok ((db.attendance_logs.filter (fun l => l.session_id == sid)).length) ∧
    (∀ x ∈ (end_session sid now db).1.sessions, x.id = sid →
      x.is_active = false ∧ x.end_time = some now) ∧
    (end_session sid now db).1.attendance_logs = db.attendance_logs ∧
    (end_session sid now db).1.raw_detections = db.raw_detections ∧
    ((∀ l ∈ db.attendance_logs, l.session_id = sid → l.status = "PRESENT") →
      (end_session sid now db).2 = .ok (presentCountSession db sid)) := by
  unfold end_session
  rw [hs]
  dsimp only
  refine ⟨rfl, ?_, rfl, rfl, ?_⟩
  · intro x hx hxid
    rw [List.mem_map] at hx
    obtain ⟨y, hy, hxy⟩ := hx
    by_cases hyid : (y.id == sid) = true
    · rw [if_pos hyid] at hxy
      rw [← hxy]
      exact ⟨rfl, rfl⟩
    · rw [if_neg hyid] at hxy
      rw [← hxy] at hxid
      exact absurd (beq_iff_eq.mpr hxid) hyid
  · intro hall
    have : db.attendance_logs.filter (fun l => l.session_id == sid) =
        db.attendance_logs.filter
          (fun l => l.session_id == sid && l.status == "PRESENT") := by
      apply List.filter_congr
      intro l hl
      by_cases hls : l.session_id = sid
      · simp [hls, hall l hl hls]
      · simp [hls]
    rw [this]
    rfl

/-- Example state: the ledger holds one non-PRESENT row for session 1. -/
def dbAbsent : DB :=
  { dbOne with attendance_logs := [⟨1, 1, "ABSENT", 0, 0⟩] }

/-- C8 counterexample: `end_session` counts every AttendanceLog row of the
session with no status filter, so with one ABSENT row it reports
`total_present = 1` while the number of PRESENT rows is 0. -/
theorem c8_counterexample :
    (end_session 1 5 dbAbsent).2 = .ok 1 ∧
    presentCountSession dbAbsent 1 = 0 ∧ (1 : Nat) ≠ 0 := by
  refine ⟨?_, ?_, by norm_num⟩
  · norm_num [end_session, dbAbsent, dbOne, presentCountSession, countersPop,
      List.find?, List.filter]
  · norm_num [end_session, dbAbsent, dbOne, presentCountSession, countersPop,
      List.find?, List.filter]
    rfl

/-- Witness for `c8_end_session_effect` on `dbOne` (empty ledger). -/
theorem c8_end_session_effect_witness :
    (end_session 1 5 dbOne).2 =
      .ok ((dbOne.attendance_logs.filter (fun l => l.session_id == 1)).length) ∧
    (∀ x ∈ (end_session 1 5 dbOne).1.sessions, x.id = 1 →
      x.is_active = false ∧ x.end_time = some 5) ∧
    (end_session 1 5 dbOne).1.attendance_logs = dbOne.attendance_logs ∧
    (end_session 1 5 dbOne).1.raw_detections = dbOne.raw_detections ∧
    ((∀ l ∈ dbOne.attendance_logs, l.session_id = 1 → l.status = "PRESENT") →
      (end_session 1 5 dbOne).2 = .ok (presentCountSession dbOne 1)) :=
  c8_end_session_effect 1 5 dbOne ⟨1, 7, "Math", 0, none, true⟩
    (by simp [dbOne, List.find?])

/-! ### C9, C10: enrollment -/

theorem le_foldl_max (l : List Nat) :
    ∀ a : Nat, a ≤ l.foldl max a ∧ ∀ x ∈ l, x ≤ l.foldl max a := by
  induction l with
  | nil =>
    intro a
    exact ⟨le_refl a, by intro x hx; cases hx⟩
  | cons y t ih =>
    intro a
    obtain ⟨h1, h2⟩ := ih (max a y)
    refine ⟨le_trans (le_max_left a y) h1, ?_⟩
    intro x hx
    rcases List.mem_cons.mp hx with rfl | hx
    · exact le_trans (le_max_right a x) h1
    · exact h2 x hx

theorem freshStudentPk_gt (db : DB) :
    ∀ s ∈ db.students, s.id < freshStudentPk db := by
  intro s hs
  unfold freshStudentPk
  have := (le_foldl_max (db.students.map (·.id)) 0).2 s.id
    (List.mem_map_of_mem _ hs)
  omega

theorem enrollLoop_eq (env : FaceEnv) (sid : Nat) :
    ∀ (files : List Bytes) (acc : List FaceEmbedding),
      (∀ f ∈ files, (env.imdecode f).isSome) →
      enrollLoop env sid files acc =
        .ok (acc ++ (validEncodings env files).map
          (fun v => { student_id := sid, embedding_bytes := v })) := by
  intro files
  induction files with
  | nil =>
    intro acc _
    simp [enrollLoop, validEncodings]
  | cons f fs ih =>
    intro acc h
    have hf : (env.imdecode f).isSome = true := h f (List.mem_cons_self f fs)
    rcases himg : process_image env f with e | es
    · exfalso
      unfold process_image at himg
      rcases hdec : env.imdecode f with _ | img
      · rw [hdec] at hf; simp at hf
      · rw [hdec] at himg; simp at himg
    · unfold enrollLoop
      rw [himg]
      dsimp only
      unfold validEncodings
      rw [himg]
      dsimp only
      by_cases hlen : (es.length == 1) = true
      · rw [if_pos hlen, if_pos hlen]
        rw [ih _ (fun g hg => h g (List.mem_cons_of_mem f hg))]
        simp
      · rw [if_neg hlen, if_neg hlen]
        exact ih _ (fun g hg => h g (List.mem_cons_of_mem f hg))

/-- C9: for an enrollment whose external id is fresh and whose images all
decode, each image with exactly one detected face contributes exactly one
stored embedding (in submission order), images with zero or several faces are
skipped without failing the enrollment, and the enrollment fails — leaving the
state exactly unchanged, no Student behind — precisely when zero valid
embeddings were produced. -/
theorem c9_enrollment (env : FaceEnv) (full_name ext_id : String)
    (files : List Bytes) (db : DB)
    (hdup : db.students.find? (fun s => s.student_id == ext_id) = none)
    (hdec : ∀ f ∈ files, (env.imdecode f).isSome) :
    ((validEncodings env files).length = 0 →
      enroll_student env full_name ext_id files db =
        (db, .no_valid_embeddings_400)) ∧
    ((validEncodings env files).length ≠ 0 →
      enroll_student env full_name ext_id files db =
        ({ db with
            students := db.students ++
              [⟨freshStudentPk db, ext_id, full_name⟩],
            face_embeddings := db.face_embeddings ++
              (validEncodings env files).map
                (fun v => ⟨freshStudentPk db, v⟩) },
         .ok ⟨freshStudentPk db, ext_id, full_name⟩)) ∧
    ((validEncodings env files).map
        (fun v => (⟨freshStudentPk db, v⟩ : FaceEmbedding))).length =
      (validEncodings env files).length := by
  unfold enroll_student
  rw [hdup]
  dsimp only
  rw [enrollLoop_eq env (freshStudentPk db) files [] hdec]
  dsimp only
  rw [List.nil_append]
  refine ⟨?_, ?_, by simp⟩
  · intro h0
    rw [if_pos (by simp [h0])]
    have hrestore : (db.students ++
        [(⟨freshStudentPk db, ext_id, full_name⟩ : Student)]).filter
          (fun s => s.id != freshStudentPk db) = db.students := by
      rw [List.filter_append]
      have h1 : db.students.filter (fun s => s.id != freshStudentPk db) =
          db.students := by
        rw [List.filter_eq_self]
        intro s hs
        have := freshStudentPk_gt db s hs
        simp only [bne_iff_ne, ne_eq]
        omega
      have h2 : ([(⟨freshStudentPk db, ext_id, full_name⟩ : Student)]).filter
          (fun s => s.id != freshStudentPk db) = [] := by
        simp
      rw [h1, h2, List.append_nil]
    rw [hrestore]
  · intro hne
    rw [if_neg (by simp [hne])]

/-- C10: for an enrollment request whose external student id already belongs
to an existing Student, `enroll_student` fails with the duplicate-id client
error and the state is returned unchanged, whatever images were submitted (no
image is processed). -/
theorem c10_duplicate_student_id (env : FaceEnv) (full_name ext_id : String)
    (files : List Bytes) (db : DB) (s : Student)
    (h : db.students.find? (fun s => s.student_id == ext_id) = some s) :
    enroll_student env full_name ext_id files db = (db, .duplicate_id_400) := by
  unfold enroll_student
  rw [h]

/-- Example face capability for enrollment: every byte string decodes to its
first byte as image handle; image 0 shows exactly one face, any other image
shows none. -/
def envMixed : FaceEnv :=
  { imdecode := fun b => some (b.headD 0),
    face_encodings := fun img => if img = 0 then [[1]] else [],
    face_distance := fun _ _ => 0 }

/-- Witness for `c9_enrollment`: two images, one with a single face (stored)
and one with no face (skipped); enrollment succeeds with exactly one
embedding. -/
theorem c9_enrollment_witness :
    ((validEncodings envMixed [[0], [7]]).length = 0 →
      enroll_student envMixed "Bob" "S2" [[0], [7]] dbOne =
        (dbOne, .no_valid_embeddings_400)) ∧
    ((validEncodings envMixed [[0], [7]]).length ≠ 0 →
      enroll_student envMixed "Bob" "S2" [[0], [7]] dbOne =
        ({ dbOne with
            students := dbOne.students ++
              [⟨freshStudentPk dbOne, "S2", "Bob"⟩],
            face_embeddings := dbOne.face_embeddings ++
              (validEncodings envMixed [[0], [7]]).map
                (fun v => ⟨freshStudentPk dbOne, v⟩) },
         .ok ⟨freshStudentPk dbOne, "S2", "Bob"⟩)) ∧
    ((validEncodings envMixed [[0], [7]]).map
        (fun v => (⟨freshStudentPk dbOne, v⟩ : FaceEmbedding))).length =
      (validEncodings envMixed [[0], [7]]).length :=
  c9_enrollment envMixed "Bob" "S2" [[0], [7]] dbOne
    (by simp [dbOne, List.find?])
    (by intro f _; rfl)

/-- Witness for `c10_duplicate_student_id`: enrolling under the already-used
external id `"S1"` is rejected with the state unchanged. -/
theorem c10_duplicate_student_id_witness :
    enroll_student envMixed "Bob" "S1" [[0]] dbOne =
      (dbOne, .duplicate_id_400) :=
  c10_duplicate_student_id envMixed "Bob" "S1" [[0]] dbOne
    ⟨1, "S1", "Alice"⟩ (by simp [dbOne, List.find?])

end SmartAttendance
